import Mathlib

/-!
Verification of the py-psscriptanalyzer repository against its specification.

This file gives a shallow embedding of the repository's pure logic:

* `scripts.py` — PowerShell script synthesis (`escape_powershell_path`,
  `build_powershell_file_array`, `generate_analysis_script`): the Python
  functions build the script text by f-string interpolation, modelled here
  as `String` concatenation of the same literal chunks.  Literal braces of
  the PowerShell text are written with the escapes `\x7b` / `\x7d`, single
  quotes as `\x27` and the backtick as `\x60`; otherwise the chunks are
  verbatim transcriptions of the Python string templates.
* `core.py` — `convert_to_sarif` (JSON findings → SARIF document) and the
  `main` entry point.  Filesystem-dependent `os.path.abspath` is passed in
  as an explicit function argument `abspath`.
* `powershell.py` — `find_powershell`, with the outcome of each subprocess
  probe supplied by an explicit environment `probe`.
* `cli.py` — the `main` entry point, with subprocess/console effects
  modelled as an explicit event trace.

Theorems at the end settle the specification claims about these functions.
-/

namespace PsSpec

/-! ### constants.py -/

/-- PowerShell executable names in order of preference (`POWERSHELL_EXECUTABLES`). -/
def POWERSHELL_EXECUTABLES : List String := ["pwsh", "pwsh-lts", "powershell"]

/-- Supported PowerShell file extensions (`POWERSHELL_FILE_EXTENSIONS`). -/
def POWERSHELL_FILE_EXTENSIONS : List String := [".ps1", ".psm1", ".psd1"]

/-- Severity levels accepted by the CLI (`SEVERITY_LEVELS`). -/
def SEVERITY_LEVELS : List String := ["All", "Information", "Warning", "Error"]

/-- SARIF version for output (`SARIF_VERSION`). -/
def SARIF_VERSION : String := "2.1.0"

/-- Security-related PSScriptAnalyzer rules (`SECURITY_RULES`). -/
def SECURITY_RULES : List String :=
  ["AvoidUsingPlainTextForPassword",
   "AvoidUsingComputerNameHardcoded",
   "AvoidUsingConvertToSecureStringWithPlainText",
   "AvoidUsingInvokeExpression",
   "UseProcessBlockForPipelineCommand",
   "PSAvoidUsingUserNameAndPasswordParams",
   "PSUsePSCredentialType",
   "PSAvoidUsingUnencryptedNetworkResources",
   "PSAvoidGlobalAliases",
   "PSAvoidGlobalFunctions",
   "PSAvoidUsingBrokenHashAlgorithms"]

/-- Style and formatting related PSScriptAnalyzer rules (`STYLE_RULES`). -/
def STYLE_RULES : List String :=
  ["PSAlignAssignmentStatement",
   "PSPlaceCloseBrace",
   "PSPlaceOpenBrace",
   "PSUseConsistentIndentation",
   "PSUseConsistentWhitespace",
   "PSUseCorrectCasing",
   "PSAvoidTrailingWhitespace",
   "PSAvoidSemicolonsAsLineTerminators",
   "PSAvoidLongLines"]

/-- Performance-related PSScriptAnalyzer rules (`PERFORMANCE_RULES`). -/
def PERFORMANCE_RULES : List String :=
  ["PSAvoidUsingCmdletAliases",
   "PSAvoidUsingInvokeExpression",
   "PSAvoidUsingPositionalParameters",
   "PSUseLiteralInitializerForHashtable",
   "PSUseProcessBlockForPipelineCommand"]

/-- Best practices related PSScriptAnalyzer rules (`BEST_PRACTICES_RULES`). -/
def BEST_PRACTICES_RULES : List String :=
  ["PSUseApprovedVerbs",
   "PSAvoidDefaultValueForMandatoryParameter",
   "PSAvoidDefaultValueSwitchParameter",
   "PSAvoidGlobalVars",
   "PSAvoidUsingWriteHost",
   "PSProvideCommentHelp",
   "PSUseSingularNouns",
   "PSUseShouldProcessForStateChangingFunctions",
   "PSUseSupportsShouldProcess",
   "PSShouldProcess"]

/-- DSC (Desired State Configuration) related rules (`DSC_RULES`). -/
def DSC_RULES : List String :=
  ["PSDSCDscExamplesPresent",
   "PSDSCDscTestsPresent",
   "PSDSCReturnCorrectTypesForDSCFunctions",
   "PSDSCUseIdenticalMandatoryParametersForDSC",
   "PSDSCUseIdenticalParametersForDSC",
   "PSDSCStandardDSCFunctionsInResource",
   "PSDSCUseVerboseMessageInDSCResource"]

/-- Compatibility-related rules (`COMPATIBILITY_RULES`). -/
def COMPATIBILITY_RULES : List String :=
  ["PSUseCompatibleCommands",
   "PSUseCompatibleSyntax",
   "PSUseCompatibleTypes",
   "PSUseCompatibleCmdlets"]

/-! ### scripts.py -/

/-- Character-level body of Python `path.replace("'", "''")`: every single
quote is doubled, every other character is kept. -/
def escapeChars : List Char → List Char
  | [] => []
  | c :: rest => if c = '\x27' then '\x27' :: '\x27' :: escapeChars rest else c :: escapeChars rest

/-- Model of `escape_powershell_path`: escape a file path for use in
PowerShell by doubling each single quote. -/
def escape_powershell_path (path : String) : String :=
  String.mk (escapeChars path.data)

/-- Model of `build_powershell_file_array`: wrap each escaped file in single
quotes and join with commas. -/
def build_powershell_file_array (files : List String) : String :=
  String.intercalate "," (files.map (fun f => "\x27" ++ escape_powershell_path f ++ "\x27"))

/-- Model of Python `", ".join(f"'{rule}'" for rule in rules)` used for every
rule list embedded in the generated script. -/
def quoteJoin (rules : List String) : String :=
  String.intercalate ", " (rules.map (fun r => "\x27" ++ r ++ "\x27"))

/-- Post-filter clause emitted for severity `Warning` (and the fallback
branch) in `generate_analysis_script`. -/
def warningSeverityFilter : String :=
  "\n                # Filter to show only Warning and Error severity issues\n                $result = $result | Where-Object \x7b $_.Severity -eq \"Warning\" -or $_.Severity -eq \"Error\" \x7d"

/-- First `if`/`elif` chain of `generate_analysis_script`: the pair
`(severity_param, filter_logic)` chosen from the requested severity. -/
def severitySelection (severity : String) : String × String :=
  if severity = "All" ∨ severity = "Information" then ("", "")
  else if severity = "Warning" then ("", warningSeverityFilter)
  else if severity = "Error" then ("-Severity Error", "")
  else ("", warningSeverityFilter)

/-- Category filter block emitted when `security_only` is set. -/
def securityCategoryFilter : String :=
  "\n                # Filter to include only security-related rules\n                $categoryRules = @(" ++ quoteJoin SECURITY_RULES ++ ")\n                $result = $result | Where-Object \x7b $categoryRules -contains $_.RuleName \x7d\n                # Add category property to results for SARIF conversion\n                $result | ForEach-Object \x7b\n                    $_ | Add-Member -MemberType NoteProperty -Name \"IsSecurityRule\" -Value $true -Force\n                    $_ | Add-Member -MemberType NoteProperty -Name \"RuleCategory\" -Value \"Security\" -Force\n                \x7d\n        "

/-- Category filter block emitted when `style_only` is set. -/
def styleCategoryFilter : String :=
  "\n                # Filter to include only style-related rules\n                $categoryRules = @(" ++ quoteJoin STYLE_RULES ++ ")\n                $result = $result | Where-Object \x7b $categoryRules -contains $_.RuleName \x7d\n                # Add category property to results for SARIF conversion\n                $result | ForEach-Object \x7b\n                    $_ | Add-Member -MemberType NoteProperty -Name \"RuleCategory\" -Value \"Style\" -Force\n                \x7d\n        "

/-- Category filter block emitted when `performance_only` is set. -/
def performanceCategoryFilter : String :=
  "\n                # Filter to include only performance-related rules\n                $categoryRules = @(" ++ quoteJoin PERFORMANCE_RULES ++ ")\n                $result = $result | Where-Object \x7b $categoryRules -contains $_.RuleName \x7d\n                # Add category property to results for SARIF conversion\n                $result | ForEach-Object \x7b\n                    $_ | Add-Member -MemberType NoteProperty -Name \"RuleCategory\" -Value \"Performance\" -Force\n                \x7d\n        "

/-- Category filter block emitted when `best_practices_only` is set. -/
def bestPracticesCategoryFilter : String :=
  "\n                # Filter to include only best practices rules\n                $categoryRules = @(" ++ quoteJoin BEST_PRACTICES_RULES ++ ")\n                $result = $result | Where-Object \x7b $categoryRules -contains $_.RuleName \x7d\n                # Add category property to results for SARIF conversion\n                $result | ForEach-Object \x7b\n                    $_ | Add-Member -MemberType NoteProperty -Name \"RuleCategory\" -Value \"BestPractices\" -Force\n                \x7d\n        "

/-- Category filter block emitted when `dsc_only` is set. -/
def dscCategoryFilter : String :=
  "\n                # Filter to include only DSC-related rules\n                $categoryRules = @(" ++ quoteJoin DSC_RULES ++ ")\n                $result = $result | Where-Object \x7b $categoryRules -contains $_.RuleName \x7d\n                # Add category property to results for SARIF conversion\n                $result | ForEach-Object \x7b\n                    $_ | Add-Member -MemberType NoteProperty -Name \"RuleCategory\" -Value \"DSC\" -Force\n                \x7d\n        "

/-- Category filter block emitted when `compatibility_only` is set. -/
def compatibilityCategoryFilter : String :=
  "\n                # Filter to include only compatibility-related rules\n                $categoryRules = @(" ++ quoteJoin COMPATIBILITY_RULES ++ ")\n                $result = $result | Where-Object \x7b $categoryRules -contains $_.RuleName \x7d\n                # Add category property to results for SARIF conversion\n                $result | ForEach-Object \x7b\n                    $_ | Add-Member -MemberType NoteProperty -Name \"RuleCategory\" -Value \"Compatibility\" -Force\n                \x7d\n        "

/-- Second `if`/`elif` chain of `generate_analysis_script`: the
`rule_category_filter` string ("" when no category flag is set). -/
def ruleCategoryFilter (security_only style_only performance_only best_practices_only dsc_only compatibility_only : Bool) : String :=
  if security_only then securityCategoryFilter
  else if style_only then styleCategoryFilter
  else if performance_only then performanceCategoryFilter
  else if best_practices_only then bestPracticesCategoryFilter
  else if dsc_only then dscCategoryFilter
  else if compatibility_only then compatibilityCategoryFilter
  else ""

/-- Filter block emitted for a non-empty `include_rules` list. -/
def includeFilterString (rules : List String) : String :=
  "\n                # Filter to include only specific rules\n                $includeRules = @(" ++ quoteJoin rules ++ ")\n                $result = $result | Where-Object \x7b $includeRules -contains $_.RuleName \x7d\n        "

/-- Filter block emitted for a non-empty `exclude_rules` list. -/
def excludeFilterString (rules : List String) : String :=
  "\n                # Filter to exclude specific rules\n                $excludeRules = @(" ++ quoteJoin rules ++ ")\n                $result = $result | Where-Object \x7b $excludeRules -notcontains $_.RuleName \x7d\n        "

/-- Computation of `include_exclude_filter` in `generate_analysis_script`:
`if include_rules:` assigns the include block, then `if exclude_rules:`
overwrites it with the exclude block.  Python truthiness of an optional
list (`None` and `[]` are falsy) is made explicit. -/
def includeExcludeFilter (include_rules exclude_rules : Option (List String)) : String :=
  let base :=
    match include_rules with
    | some l => if l ≠ [] then includeFilterString l else ""
    | none => ""
  match exclude_rules with
  | some l => if l ≠ [] then excludeFilterString l else base
  | none => base

/-- Output block of `generate_analysis_script` when `json_output` is set. -/
def jsonOutputCode : String :=
  "\n            # Convert to JSON format\n            if ($issues.Count -gt 0) \x7b\n                $issues | ConvertTo-Json -Depth 4\n                exit 1\n            \x7d else \x7b\n                Write-Host \"\"\n                exit 0\n            \x7d"

/-- Model of `_generate_github_actions_output`. -/
def githubActionsOutput : String :=
  "\n                        # Use GitHub Actions annotations\n                        $annotationType = switch ($issue.Severity) \x7b\n                            \"Error\" \x7b \"error\" \x7d\n                            \"Warning\" \x7b \"warning\" \x7d\n                            \"Information\" \x7b \"notice\" \x7d\n                            default \x7b \"error\" \x7d\n                        \x7d\n\n                        # Map severity for GitHub Actions display\n                        $displaySeverity = switch ($issue.Severity) \x7b\n                            \"Error\" \x7b \"Error\" \x7d\n                            \"Warning\" \x7b \"Warning\" \x7d\n                            \"Information\" \x7b \"Notice\" \x7d\n                            default \x7b \"Error\" \x7d\n                        \x7d\n\n                        # GitHub Actions annotation format\n                        $annotation = \"::\" + $annotationType + \" file=\" + $issue.ScriptName + \x60\n                            \",line=\" + $issue.Line + \",title=\" + $issue.RuleName + \"::\" + $issue.Message\n                        Write-Host $annotation\n\n                        # Also show regular output for readability with GitHub Actions terminology\n                        $header = \"$($displaySeverity): $($location): $($issue.RuleName)\"\n                        Write-Host $header\n                        Write-Host \"  $($issue.Message)\"\n                        Write-Host \"\"\n    "

/-- Model of `_generate_terminal_output`. -/
def terminalOutput : String :=
  "\n                        # Set color based on severity for local terminal\n                        $severityColor = switch ($issue.Severity) \x7b\n                            \"Error\" \x7b \"Red\" \x7d\n                            \"Warning\" \x7b \"DarkYellow\" \x7d\n                            \"Information\" \x7b \"Cyan\" \x7d\n                            default \x7b \"Red\" \x7d\n                        \x7d\n\n                        $header = \"$($issue.Severity): $($location): $($issue.RuleName)\"\n                        Write-Host $header -ForegroundColor $severityColor\n                        Write-Host \"  $($issue.Message)\" -ForegroundColor Gray\n                        Write-Host \"\"\n    "

/-- Model of `_generate_issue_reporting_logic`. -/
def issueReportingLogic : String :=
  "\n                foreach ($issue in $issues) \x7b\n                    $fileName = Split-Path -Leaf $issue.ScriptName\n                    $location = \"$($fileName): Line $($issue.Line):1\"\n\n                    if ($isGitHubActions) \x7b" ++ githubActionsOutput ++ "\n                    \x7d else \x7b" ++ terminalOutput ++ "\n                    \x7d\n                \x7d\n                Write-Host \"Found $($issues.Count) issue(s)\" -ForegroundColor Yellow\n    "

/-- Output block of `generate_analysis_script` when `json_output` is not set. -/
def textOutputCode : String :=
  "\n            if ($issues.Count -gt 0) \x7b\n                Write-Host \"\"\n\n                # Check if running in GitHub Actions\n                $isGitHubActions = $env:GITHUB_ACTIONS -eq \"true\"\n" ++ issueReportingLogic ++ "\n                exit 1\n            \x7d else \x7b\n                Write-Host \"No issues found\" -ForegroundColor Green\n                exit 0\n            \x7d"

/-- Model of `_generate_error_handling`. -/
def analysisErrorHandling : String :=
  "\n        catch [System.IO.FileLoadException] \x7b\n            Write-Error \"Assembly loading error: $($_.Exception.Message)\"\n            Write-Error \"This may be due to .NET runtime compatibility issues.\"\n            Write-Error \"Try updating PowerShell or reinstalling PSScriptAnalyzer.\"\n            exit 250\n        \x7d catch \x7b\n            Write-Error \"Unexpected error: $($_.Exception.Message)\"\n            exit 250\n        \x7d\n    "

/-- Literal chunk of the final template before `files_param`. -/
def analysisHeader : String :=
  "\n        try \x7b\n            $files = @("

/-- Literal chunk of the final template between `files_param` and
`severity_param`. -/
def analysisInvoke : String :=
  ")\n            $issues = @()\n            foreach ($file in $files) \x7b\n                $result = Invoke-ScriptAnalyzer -Path $file "

/-- Literal chunk of the final template between `filter_logic` and
`output_code`. -/
def analysisLoopClose : String :=
  "\n                if ($result) \x7b\n                    $issues += $result\n                \x7d\n            \x7d\n"

/-- Model of `generate_analysis_script`: one self-contained PowerShell
script, assembled exactly as the Python f-string template does.  The Python
guards `if rule_category_filter:` / `if include_exclude_filter:` before the
`+=` appends are identities for empty strings, so `filter_logic` is plain
concatenation here. -/
def generate_analysis_script (files_param : String) (severity : String)
    (security_only style_only performance_only best_practices_only dsc_only compatibility_only : Bool)
    (include_rules exclude_rules : Option (List String)) (json_output : Bool) : String :=
  let severity_param := (severitySelection severity).1
  let filter_logic :=
    (severitySelection severity).2
      ++ ruleCategoryFilter security_only style_only performance_only best_practices_only dsc_only compatibility_only
      ++ includeExcludeFilter include_rules exclude_rules
  let output_code := if json_output then jsonOutputCode else textOutputCode
  analysisHeader ++ files_param ++ analysisInvoke ++ severity_param ++ filter_logic
    ++ analysisLoopClose ++ output_code ++ "\n        \x7d " ++ analysisErrorHandling ++ "\n        "

/-! ### core.py — convert_to_sarif -/

/-- Severity value of a finding record as PSScriptAnalyzer emits it: either
a string or a numeric alias (the keys of `severity_map` in the source). -/
inductive SevValue where
  | str (s : String)
  | num (n : Int)
  deriving DecidableEq

/-- One raw finding record, the dictionary fields `convert_to_sarif` reads
with `result.get(...)`.  `none` models an absent key. -/
structure PSResult where
  RuleName : Option String := none
  Severity : Option SevValue := none
  Message : Option String := none
  ScriptPath : Option String := none
  Line : Option Int := none
  Column : Option Int := none
  IsSecurityRule : Option Bool := none
  RuleCategory : Option String := none
  deriving DecidableEq

/-- Rule-metadata entry appended to `driver["rules"]`. -/
structure SarifRule where
  id : String
  shortDescriptionText : String
  tags : List String
  category : String
  deriving DecidableEq

/-- Result entry appended to `runs[0]["results"]`. -/
structure SarifResult where
  ruleId : String
  level : String
  messageText : String
  uri : String
  startLine : Int
  startColumn : Int
  deriving DecidableEq

/-- SARIF document skeleton built by `convert_to_sarif` (the nested
constant fields of the single run are flattened into this record). -/
structure Sarif where
  schema : String
  version : String
  driverName : String
  driverSemanticVersion : String
  driverInformationUri : String
  rules : List SarifRule
  results : List SarifResult
  artifacts : List String
  deriving DecidableEq

/-- Lookup `severity_map.get(severity, "warning")`: the fixed table mapping
severity values to SARIF levels, defaulting to "warning". -/
def sevLevel : SevValue → String
  | .str s =>
    if s = "Error" then "error"
    else if s = "Warning" then "warning"
    else if s = "Information" then "note"
    else "warning"
  | .num n =>
    if n = 0 then "note"
    else if n = 1 then "warning"
    else if n = 2 then "error"
    else "warning"

/-- Field read `result.get("RuleName", "")`. -/
def ridOf (f : PSResult) : String :=
  f.RuleName.getD ""

/-- Tag computation for a rule-metadata entry: a "security" tag when the
record's `IsSecurityRule` flag is set, plus the lower-cased `RuleCategory`
when present and not already among the tags (compared lower-cased).
Python's `str.lower` is modelled character-wise. -/
def lowerStr (s : String) : String :=
  String.mk (s.data.map Char.toLower)

/-- Tags attached to the rule-metadata entry built from a finding. -/
def ruleTags (f : PSResult) : List String :=
  let tags := if f.IsSecurityRule.getD false then ["security"] else []
  let rule_category := f.RuleCategory.getD ""
  if rule_category ≠ "" ∧ lowerStr rule_category ∉ tags.map lowerStr then
    tags ++ [lowerStr rule_category]
  else tags

/-- Rule-metadata entry appended for the first finding with a given rule id. -/
def mkRuleMeta (f : PSResult) : SarifRule :=
  { id := ridOf f
    shortDescriptionText := ridOf f
    tags := ruleTags f
    category := f.RuleCategory.getD "" }

/-- Result entry appended for every finding. -/
def mkSarifResult (abspath : String → String) (f : PSResult) : SarifResult :=
  { ruleId := ridOf f
    level := sevLevel (f.Severity.getD (SevValue.str "Warning"))
    messageText := f.Message.getD ""
    uri := "file://" ++ abspath (f.ScriptPath.getD "")
    startLine := f.Line.getD 1
    startColumn := f.Column.getD 1 }

/-- Loop of `convert_to_sarif` over the findings, threading the
`rules_added` dedup set (modelled as the list of ids already added):
a rule-metadata entry is appended only when the id is non-empty and not in
the set, and a result entry is appended for every finding. -/
def convertLoop (abspath : String → String) : List PSResult → List String → List SarifRule × List SarifResult
  | [], _ => ([], [])
  | f :: rest, rules_added =>
    let rule_id := ridOf f
    if rule_id ≠ "" ∧ rule_id ∉ rules_added then
      let tail := convertLoop abspath rest (rule_id :: rules_added)
      (mkRuleMeta f :: tail.1, mkSarifResult abspath f :: tail.2)
    else
      let tail := convertLoop abspath rest rules_added
      (tail.1, mkSarifResult abspath f :: tail.2)

/-- Model of `convert_to_sarif`.  `abspath` stands for `os.path.abspath`
(a pure function of the path once the working directory is fixed).  The
Python guard wrapping a non-list argument into a list is an identity for
the `List` input type used here. -/
def convert_to_sarif (abspath : String → String) (ps_results : List PSResult) (files : List String) : Sarif :=
  let pair := convertLoop abspath ps_results []
  { schema := "https://schemastore.azurewebsites.net/schemas/json/sarif-" ++ SARIF_VERSION ++ ".json"
    version := SARIF_VERSION
    driverName := "PSScriptAnalyzer"
    driverSemanticVersion := "1.x"
    driverInformationUri := "https://github.com/PowerShell/PSScriptAnalyzer"
    rules := pair.1
    results := pair.2
    artifacts := files.map (fun f => "file://" ++ abspath f) }

/-! ### powershell.py — find_powershell -/

/-- Outcome of one `subprocess.run` version probe: the process exited with
a code, the executable was missing (`FileNotFoundError`), or the probe
timed out (`subprocess.TimeoutExpired`). -/
inductive ProbeOutcome where
  | exits (code : Int)
  | missing
  | timedOut
  deriving DecidableEq

/-- Whether a probe outcome is the success the loop returns on
(`result.returncode == 0`). -/
def probeSucceeds : ProbeOutcome → Bool
  | .exits c => c == 0
  | .missing => false
  | .timedOut => false

/-- Loop body of `find_powershell` over the remaining candidate names:
return the name on exit code 0, move on after a non-zero exit, a missing
executable or a timeout. -/
def findPowershellFrom (probe : String → ProbeOutcome) : List String → Option String
  | [] => none
  | name :: rest =>
    match probe name with
    | .exits c => if c = 0 then some name else findPowershellFrom probe rest
    | .missing => findPowershellFrom probe rest
    | .timedOut => findPowershellFrom probe rest

/-- Model of `find_powershell`: try the candidates of
`POWERSHELL_EXECUTABLES` in order under the probe environment `probe`. -/
def find_powershell (probe : String → ProbeOutcome) : Option String :=
  findPowershellFrom probe POWERSHELL_EXECUTABLES

/-! ### cli.py and core.py — main entry points

Console and subprocess effects are modelled as an explicit event trace: an
emitted message, the PSScriptAnalyzer module check, the module install
attempt, and the analyzer invocation.  `print_status` emits its message
text, `print_error` renders as "Error: " followed by the message, and
`print_success` as "OK " followed by the message (the Rich colour markup
carries no text content).
-/

/-- Observable step of a `main` run. -/
inductive Event where
  | message (s : String)
  | checkModule
  | installModule
  | runAnalyzer
  deriving DecidableEq

/-- Environment a `main` run interacts with: the probe outcomes for
PowerShell discovery, the files a recursive search would find, the results
of the module check and install subprocesses, and the exit status of the
analyzer invocation. -/
structure World where
  probe : String → ProbeOutcome
  recursiveFiles : List String
  moduleInstalled : Bool
  installOk : Bool
  analyzerExit : Int

/-- Parsed CLI arguments of `cli.create_parser`. -/
structure CliArgs where
  version : Bool := false
  recursive : Bool := false
  format : Bool := false
  severity : String := "Warning"
  security_only : Bool := false
  style_only : Bool := false
  performance_only : Bool := false
  best_practices_only : Bool := false
  dsc_only : Bool := false
  compatibility_only : Bool := false
  include_rules : Option String := none
  exclude_rules : Option String := none
  output_format : String := "text"
  output_file : Option String := none
  files : List String := []

/-- Parsed arguments of the legacy `core.main` parser. -/
structure CoreArgs where
  format : Bool := false
  severity : String := "Warning"
  files : List String := []

/-- Model of Python `f.endswith(POWERSHELL_FILE_EXTENSIONS)` (a tuple
argument matches any of the suffixes). -/
def isPowerShellFile (f : String) : Bool :=
  POWERSHELL_FILE_EXTENSIONS.any (fun ext => ext.data.isSuffixOf f.data)

/-- Message printed by both entry points when PowerShell discovery fails. -/
def psaNotFoundMsg : String :=
  "PowerShell not found. Please install PowerShell Core (pwsh) or Windows PowerShell."

/-- Follow-up pointer printed after the not-found message. -/
def psaVisitUrl : String :=
  "Visit: https://github.com/PowerShell/PowerShell#get-powershell"

/-- Version banner of `cli._get_version_display` (the installed version
string is irrelevant to the modelled control flow). -/
def cliVersionText : String :=
  "py-psscriptanalyzer"

/-- Python truthiness of an optional string (`None` and `""` are falsy). -/
def truthyStr : Option String → Bool
  | some s => s != ""
  | none => false

/-- The `filter_description` string `cli.main` builds for the progress
message. -/
def cliFilterDescription (args : CliArgs) : String :=
  if args.format then ""
  else if args.security_only then " (security rules only)"
  else if args.style_only then " (style rules only)"
  else if args.performance_only then " (performance rules only)"
  else if args.best_practices_only then " (best practices only)"
  else if args.dsc_only then " (DSC rules only)"
  else if args.compatibility_only then " (compatibility rules only)"
  else if truthyStr args.include_rules then " (specific included rules)"
  else if truthyStr args.exclude_rules then " (with specific rules excluded)"
  else ""

/-- Final stage of `cli.main`: progress message, the analyzer invocation
(`run_script_analyzer`, abstracted to its exit status), and the trailing
success message in plain-text analyze mode. -/
def cliRunStage (w : World) (args : CliArgs) (ps_files : List String) (events : List Event) : Int × List Event :=
  let action := if args.format then "Formatting" else "Analyzing"
  let events := events ++
    [Event.message (action ++ cliFilterDescription args ++ " " ++ toString ps_files.length ++ " PowerShell file(s)..."),
     Event.runAnalyzer]
  let result := w.analyzerExit
  if result = 0 ∧ args.format = false ∧ args.output_format = "text" then
    (result, events ++ [Event.message ("OK " ++ "No issues found")])
  else (result, events)

/-- Dependency-bootstrap stage of `cli.main` after PowerShell was found. -/
def cliAfterPowershell (w : World) (args : CliArgs) (ps_files : List String) (events : List Event) (cmd : String) : Int × List Event :=
  let events := events ++
    [Event.message ("OK " ++ "Using PowerShell: " ++ cmd),
     Event.message "Checking PSScriptAnalyzer installation...",
     Event.checkModule]
  if !w.moduleInstalled then
    let events := events ++ [Event.message "PSScriptAnalyzer not found. Installing...", Event.installModule]
    if !w.installOk then (1, events ++ [Event.message ("Error: " ++ "Failed to install PSScriptAnalyzer")])
    else cliRunStage w args ps_files (events ++ [Event.message ("OK " ++ "PSScriptAnalyzer installed successfully")])
  else cliRunStage w args ps_files (events ++ [Event.message ("OK " ++ "PSScriptAnalyzer is available")])

/-- PowerShell-discovery stage of `cli.main`, shared by the recursive and
explicit-files paths. -/
def cliWithFiles (w : World) (args : CliArgs) (ps_files : List String) (events : List Event) : Int × List Event :=
  let events := events ++ [Event.message "Finding PowerShell installation..."]
  match find_powershell w.probe with
  | none => (1, events ++ [Event.message ("Error: " ++ psaNotFoundMsg), Event.message psaVisitUrl])
  | some cmd => cliAfterPowershell w args ps_files events cmd

/-- Model of `cli.main`. -/
def cli_main (w : World) (args : CliArgs) : Int × List Event :=
  if args.version then (0, [Event.message cliVersionText])
  else if args.recursive then
    let events := [Event.message "Searching for PowerShell files recursively..."]
    let ps_files := w.recursiveFiles
    if ps_files.isEmpty then (0, events ++ [Event.message "No PowerShell files found"])
    else cliWithFiles w args ps_files
      (events ++ [Event.message ("OK " ++ "Found " ++ toString ps_files.length ++ " PowerShell file(s)")])
  else
    let ps_files := args.files.filter isPowerShellFile
    if ps_files.isEmpty then (0, [Event.message "No PowerShell files specified"])
    else cliWithFiles w args ps_files []

/-- Final stage of `core.main`: progress message and the analyzer
invocation. -/
def coreRun (w : World) (args : CoreArgs) (ps_files : List String) (events : List Event) : Int × List Event :=
  let action := if args.format then "Formatting" else "Analyzing"
  (w.analyzerExit,
   events ++ [Event.message (action ++ " " ++ toString ps_files.length ++ " PowerShell file(s)..."), Event.runAnalyzer])

/-- Dependency-bootstrap stage of `core.main` after PowerShell was found. -/
def coreAfterPowershell (w : World) (args : CoreArgs) (ps_files : List String) (cmd : String) : Int × List Event :=
  let events := [Event.message ("Using PowerShell: " ++ cmd), Event.checkModule]
  if !w.moduleInstalled then
    let events := events ++ [Event.message "PSScriptAnalyzer not found. Installing...", Event.installModule]
    if !w.installOk then (1, events ++ [Event.message ("Error: " ++ "Failed to install PSScriptAnalyzer")])
    else coreRun w args ps_files (events ++ [Event.message "PSScriptAnalyzer installed successfully"])
  else coreRun w args ps_files events

/-- Model of the legacy `core.main`. -/
def core_main (w : World) (args : CoreArgs) : Int × List Event :=
  let ps_files := args.files.filter isPowerShellFile
  if ps_files.isEmpty then (0, [])
  else
    match find_powershell w.probe with
    | none => (1, [Event.message ("Error: " ++ psaNotFoundMsg), Event.message psaVisitUrl])
    | some cmd => coreAfterPowershell w args ps_files cmd

/-! ### Spec-side helper definitions

These follow the specification's words, not the source, and exist only to
state the claims: substring containment, and the inverse un-doubling of the
quote escaping. -/

/-- Containment of one string in another (the spec's "the script contains
..."), as an explicit decomposition. -/
def strContains (needle hay : String) : Prop :=
  ∃ p s : String, hay = p ++ (needle ++ s)

/-- Inverse of quote doubling: scanning left to right, every pair of single
quotes becomes one. -/
def undoubleChars : List Char → List Char
  | [] => []
  | [c] => [c]
  | c :: d :: rest =>
    if c = '\x27' ∧ d = '\x27' then c :: undoubleChars rest
    else c :: undoubleChars (d :: rest)

/-- Un-doubling on strings. -/
def undoubleQuotes (s : String) : String :=
  String.mk (undoubleChars s.data)

/-! ### Helper lemmas -/

/-- String concatenation is associative. -/
theorem strAppendAssoc (a b c : String) : a ++ b ++ c = a ++ (b ++ c) := by
  cases a; cases b; cases c
  exact congrArg String.mk (List.append_assoc _ _ _)

/-- Appending the empty string on the right is the identity. -/
theorem strAppendEmpty (s : String) : s ++ "" = s := by
  cases s; exact congrArg String.mk (List.append_nil _)

/-- Every string contains itself. -/
theorem strContains_self (n : String) : strContains n n :=
  ⟨"", "", (strAppendEmpty n).symm⟩

/-- Containment survives surrounding context: if `b` contains the needle,
so does `a ++ b ++ c`, and hence any string equal to it. -/
theorem strContains_of_eq_context {n b : String} (h : strContains n b)
    (a c hay : String) (heq : hay = a ++ b ++ c) : strContains n hay := by
  obtain ⟨p, s, hb⟩ := h
  refine ⟨a ++ p, s ++ c, ?_⟩
  subst heq hb
  simp only [strAppendAssoc]

/-- Doubling quotes never produces the empty list from a non-empty input. -/
theorem escapeChars_eq_nil {s : List Char} (h : escapeChars s = []) : s = [] := by
  cases s with
  | nil => rfl
  | cons c rest =>
    exfalso
    by_cases hc : c = '\x27' <;> simp [escapeChars, hc] at h

/-- Character-level round trip: un-doubling after doubling is the identity. -/
theorem undouble_escapeChars (s : List Char) : undoubleChars (escapeChars s) = s := by
  induction s with
  | nil => rfl
  | cons c rest ih =>
    by_cases hc : c = '\x27'
    · subst hc
      simp [escapeChars, undoubleChars, ih]
    · rw [escapeChars, if_neg hc]
      cases hrest : escapeChars rest with
      | nil =>
        rw [escapeChars_eq_nil hrest]
        rfl
      | cons d tail =>
        rw [undoubleChars, if_neg (by exact fun hypand => hc hypand.1), ← hrest, ih]

/-- Quote doubling written as the per-character replacement of the spec. -/
theorem escapeChars_eq_flatMap (s : List Char) :
    escapeChars s = s.flatMap (fun c => if c = '\x27' then ['\x27', '\x27'] else [c]) := by
  induction s with
  | nil => rfl
  | cons c rest ih =>
    by_cases hc : c = '\x27' <;> simp [escapeChars, hc, ih]

/-- Results half of the `convert_to_sarif` loop: one result entry per
finding, in order, independent of the dedup set. -/
theorem convertLoop_snd (abspath : String → String) (rs : List PSResult) (added : List String) :
    (convertLoop abspath rs added).2 = rs.map (mkSarifResult abspath) := by
  induction rs generalizing added with
  | nil => rfl
  | cons f rest ih =>
    by_cases h : ridOf f ≠ "" ∧ ridOf f ∉ added <;> simp [convertLoop, h, ih]

/-- Rules half of the loop: every emitted rule id is non-empty and avoids
the dedup set the loop started from. -/
theorem convertLoop_id_invariant (abspath : String → String) (rs : List PSResult) (added : List String) :
    ∀ ru ∈ (convertLoop abspath rs added).1, ru.id ≠ "" ∧ ru.id ∉ added := by
  induction rs generalizing added with
  | nil => intro ru h; simp [convertLoop] at h
  | cons f rest ih =>
    intro ru hru
    by_cases h : ridOf f ≠ "" ∧ ridOf f ∉ added
    · rw [convertLoop, if_pos h] at hru
      rcases List.mem_cons.mp hru with heq | htail
      · subst heq
        exact ⟨h.1, h.2⟩
      · have := ih (ridOf f :: added) ru htail
        exact ⟨this.1, fun hmem => this.2 (List.mem_cons_of_mem _ hmem)⟩
    · rw [convertLoop, if_neg h] at hru
      exact ih added ru hru

/-- Rule ids emitted by the loop are pairwise distinct. -/
theorem convertLoop_nodup (abspath : String → String) (rs : List PSResult) (added : List String) :
    ((convertLoop abspath rs added).1.map (fun ru => ru.id)).Nodup := by
  induction rs generalizing added with
  | nil => simp [convertLoop]
  | cons f rest ih =>
    by_cases h : ridOf f ≠ "" ∧ ridOf f ∉ added
    · rw [convertLoop, if_pos h]
      refine List.nodup_cons.mpr ⟨?_, ih (ridOf f :: added)⟩
      intro hmem
      obtain ⟨ru, hru, hid⟩ := List.mem_map.mp hmem
      have hinv := convertLoop_id_invariant abspath rest (ridOf f :: added) ru hru
      have hid' : ru.id = ridOf f := hid
      exact hinv.2 (by rw [hid']; exact List.mem_cons_self _ _)
    · rw [convertLoop, if_neg h]
      exact ih added

/-- Every non-empty rule id occurring in the findings and outside the
initial dedup set shows up among the emitted rule ids. -/
theorem convertLoop_complete (abspath : String → String) (rs : List PSResult) (added : List String) :
    ∀ f ∈ rs, ridOf f ≠ "" → ridOf f ∉ added →
      ridOf f ∈ (convertLoop abspath rs added).1.map (fun ru => ru.id) := by
  induction rs generalizing added with
  | nil => intro f h; simp at h
  | cons g rest ih =>
    intro f hf hne hnotin
    by_cases h : ridOf g ≠ "" ∧ ridOf g ∉ added
    · rw [convertLoop, if_pos h]
      rcases List.mem_cons.mp hf with heq | htail
      · subst heq
        exact List.mem_cons_self _ _
      · by_cases hsame : ridOf f = ridOf g
        · rw [hsame]
          exact List.mem_cons_self _ _
        · have : ridOf f ∉ ridOf g :: added := by
            intro hmem
            rcases List.mem_cons.mp hmem with h1 | h2
            · exact hsame h1
            · exact hnotin h2
          exact List.mem_cons_of_mem _ (ih (ridOf g :: added) f htail hne this)
    · rw [convertLoop, if_neg h]
      rcases List.mem_cons.mp hf with heq | htail
      · subst heq
        rcases not_and_or.mp h with h1 | h2
        · exact absurd hne h1
        · exact absurd (not_not.mp h2) hnotin
      · exact ih added f htail hne hnotin

/-- Every emitted rule entry is built from the first finding in the list
that bears its rule id. -/
theorem convertLoop_first_wins (abspath : String → String) (rs : List PSResult) (added : List String) :
    ∀ ru ∈ (convertLoop abspath rs added).1,
      ∃ f, rs.find? (fun x => ridOf x == ru.id) = some f ∧ ru = mkRuleMeta f := by
  induction rs generalizing added with
  | nil => intro ru h; simp [convertLoop] at h
  | cons g rest ih =>
    intro ru hru
    by_cases h : ridOf g ≠ "" ∧ ridOf g ∉ added
    · rw [convertLoop, if_pos h] at hru
      rcases List.mem_cons.mp hru with heq | htail
      · subst heq
        exact ⟨g, List.find?_cons_of_pos _ (by simp [mkRuleMeta]), rfl⟩
      · obtain ⟨f, hfind, hmeta⟩ := ih (ridOf g :: added) ru htail
        have hninv := convertLoop_id_invariant abspath rest (ridOf g :: added) ru htail
        have hneq : ridOf g ≠ ru.id := fun hcontra =>
          hninv.2 (by rw [← hcontra]; exact List.mem_cons_self _ _)
        exact ⟨f, by rw [List.find?_cons_of_neg _ (by simp [hneq]), hfind], hmeta⟩
    · rw [convertLoop, if_neg h] at hru
      obtain ⟨f, hfind, hmeta⟩ := ih added ru hru
      have hninv := convertLoop_id_invariant abspath rest added ru hru
      have hgid : ridOf g = "" ∨ ridOf g ∈ added := by
        rcases not_and_or.mp h with h1 | h2
        · exact Or.inl (not_not.mp h1)
        · exact Or.inr (not_not.mp h2)
      have hneq : ridOf g ≠ ru.id := by
        intro hcontra
        rcases hgid with h1 | h2
        · exact hninv.1 (by rw [← hcontra]; exact h1)
        · exact hninv.2 (by rw [← hcontra]; exact h2)
      exact ⟨f, by rw [List.find?_cons_of_neg _ (by simp [hneq]), hfind], hmeta⟩

/-- Projection of the rules array of the produced document. -/
theorem convert_to_sarif_rules (abspath : String → String) (rs : List PSResult) (files : List String) :
    (convert_to_sarif abspath rs files).rules = (convertLoop abspath rs []).1 := rfl

/-- Projection of the results array of the produced document. -/
theorem convert_to_sarif_results (abspath : String → String) (rs : List PSResult) (files : List String) :
    (convert_to_sarif abspath rs files).results = (convertLoop abspath rs []).2 := rfl

/-- Projection of the artifacts array of the produced document. -/
theorem convert_to_sarif_artifacts (abspath : String → String) (rs : List PSResult) (files : List String) :
    (convert_to_sarif abspath rs files).artifacts = files.map (fun f => "file://" ++ abspath f) := rfl

/-! ### Claim theorems -/

/-- C2: for every list of finding records (all bearing a rule identifier),
the rules array of the SARIF document produced by `convert_to_sarif`
contains exactly one metadata entry per distinct rule identifier occurring
in the findings — the ids are pairwise distinct and every occurring id is
present — and the entry carries the data (category, security tag) of the
first finding bearing that identifier, so later findings with the same
identifier do not modify it. -/
theorem claim_C2_rule_metadata_dedup (abspath : String → String) (rs : List PSResult) (files : List String)
    (hne : ∀ f ∈ rs, ridOf f ≠ "") :
    (((convert_to_sarif abspath rs files).rules.map (fun ru => ru.id)).Nodup)
    ∧ (∀ f ∈ rs, ridOf f ∈ (convert_to_sarif abspath rs files).rules.map (fun ru => ru.id))
    ∧ (∀ ru ∈ (convert_to_sarif abspath rs files).rules,
        ∃ f, rs.find? (fun x => ridOf x == ru.id) = some f ∧ ru = mkRuleMeta f) := by
  rw [convert_to_sarif_rules]
  refine ⟨convertLoop_nodup abspath rs [], ?_, convertLoop_first_wins abspath rs []⟩
  intro f hf
  exact convertLoop_complete abspath rs [] f hf (hne f hf) (List.not_mem_nil _)

/-- C2 witness: two findings sharing the rule id "PSAvoidUsingWriteHost". -/
theorem claim_C2_rule_metadata_dedup_witness :
    (((convert_to_sarif (fun s => s)
        [{ RuleName := some "PSAvoidUsingWriteHost", RuleCategory := some "BestPractices" },
         { RuleName := some "PSAvoidUsingWriteHost", RuleCategory := some "Other" }]
        ["a.ps1"]).rules.map (fun ru => ru.id)).Nodup) := by
  exact (claim_C2_rule_metadata_dedup (fun s => s)
    [{ RuleName := some "PSAvoidUsingWriteHost", RuleCategory := some "BestPractices" },
     { RuleName := some "PSAvoidUsingWriteHost", RuleCategory := some "Other" }]
    ["a.ps1"] (by decide)).1

/-- C3: the SARIF level of every result produced by `convert_to_sarif` is
the fixed lookup on the record's Severity field: "Error" ↦ "error",
"Warning" ↦ "warning", "Information" ↦ "note", numeric 0/1/2 ↦
"note"/"warning"/"error", and any other severity value ↦ "warning". -/
theorem claim_C3_severity_level_map :
    (∀ (abspath : String → String) (rs : List PSResult) (files : List String),
      ((convert_to_sarif abspath rs files).results.map (fun r => r.level))
        = rs.map (fun f => sevLevel (f.Severity.getD (SevValue.str "Warning"))))
    ∧ sevLevel (SevValue.str "Error") = "error"
    ∧ sevLevel (SevValue.str "Warning") = "warning"
    ∧ sevLevel (SevValue.str "Information") = "note"
    ∧ sevLevel (SevValue.num 0) = "note"
    ∧ sevLevel (SevValue.num 1) = "warning"
    ∧ sevLevel (SevValue.num 2) = "error"
    ∧ (∀ s : String, s ≠ "Error" → s ≠ "Warning" → s ≠ "Information" →
        sevLevel (SevValue.str s) = "warning")
    ∧ (∀ n : Int, n ≠ 0 → n ≠ 1 → n ≠ 2 → sevLevel (SevValue.num n) = "warning") := by
  refine ⟨?_, rfl, rfl, rfl, rfl, rfl, rfl, ?_, ?_⟩
  · intro abspath rs files
    rw [convert_to_sarif_results, convertLoop_snd, List.map_map]
    rfl
  · intro s h1 h2 h3
    simp [sevLevel, h1, h2, h3]
  · intro n h1 h2 h3
    simp [sevLevel, h1, h2, h3]

/-- C3 witness: an unrecognized severity string maps to "warning". -/
theorem claim_C3_severity_level_map_witness :
    sevLevel (SevValue.str "ParseError") = "warning" := by
  exact claim_C3_severity_level_map.2.2.2.2.2.2.2.1 "ParseError"
    (by decide) (by decide) (by decide)

/-- C6: for every file list, `convert_to_sarif` on an empty result list
yields a document with an empty results list and exactly one artifact entry
per input file — the path resolved to a file URI — in input order. -/
theorem claim_C6_empty_results (abspath : String → String) (files : List String) :
    (convert_to_sarif abspath [] files).results = []
    ∧ (convert_to_sarif abspath [] files).artifacts
        = files.map (fun f => "file://" ++ abspath f)
    ∧ (convert_to_sarif abspath [] files).artifacts.length = files.length := by
  refine ⟨rfl, rfl, ?_⟩
  rw [convert_to_sarif_artifacts, List.length_map]

/-- C7: `escape_powershell_path` replaces each single quote by two single
quotes; un-doubling after doubling returns the original string; and a path
containing a single quote is embedded in the generated file array with the
quote doubled. -/
theorem claim_C7_escape_roundtrip :
    (∀ s : List Char,
      escapeChars s = s.flatMap (fun c => if c = '\x27' then ['\x27', '\x27'] else [c]))
    ∧ (∀ path : String, undoubleQuotes (escape_powershell_path path) = path)
    ∧ build_powershell_file_array [String.mk ['a', '\x27', 'b']]
        = String.mk ['\x27', 'a', '\x27', '\x27', 'b', '\x27'] := by
  refine ⟨escapeChars_eq_flatMap, ?_, by decide⟩
  intro path
  cases path with
  | mk data => exact congrArg String.mk (undouble_escapeChars data)

/-- C8: `find_powershell` returns the first candidate of the fixed list
whose probe exits with status 0; a missing executable and a timed-out probe
are treated identically (only exit-status-0 success matters); and when
every candidate fails, is missing, or times out, it returns `none`. -/
theorem claim_C8_find_powershell (probe q : String → ProbeOutcome) :
    find_powershell probe = POWERSHELL_EXECUTABLES.find? (fun n => probeSucceeds (probe n))
    ∧ ((∀ n ∈ POWERSHELL_EXECUTABLES, probeSucceeds (probe n) = false) →
        find_powershell probe = none)
    ∧ ((∀ n, probeSucceeds (probe n) = probeSucceeds (q n)) →
        find_powershell probe = find_powershell q) := by
  have key : ∀ (p : String → ProbeOutcome) (l : List String),
      findPowershellFrom p l = l.find? (fun n => probeSucceeds (p n)) := by
    intro p l
    induction l with
    | nil => rfl
    | cons n rest ih =>
      cases hpn : p n with
      | exits c =>
        by_cases hc : c = 0
        · subst hc
          rw [List.find?_cons_of_pos _ (by simp [probeSucceeds, hpn])]
          simp [findPowershellFrom, hpn]
        · rw [List.find?_cons_of_neg _ (by simp [probeSucceeds, hpn, hc])]
          simp [findPowershellFrom, hpn, hc, ih]
      | missing =>
        rw [List.find?_cons_of_neg _ (by simp [probeSucceeds, hpn])]
        simp [findPowershellFrom, hpn, ih]
      | timedOut =>
        rw [List.find?_cons_of_neg _ (by simp [probeSucceeds, hpn])]
        simp [findPowershellFrom, hpn, ih]
  refine ⟨key probe POWERSHELL_EXECUTABLES, ?_, ?_⟩
  · intro hall
    rw [find_powershell, key]
    exact List.find?_eq_none.mpr (fun n hn => by simp [hall n hn])
  · intro hagree
    rw [find_powershell, find_powershell, key, key]
    simp only [POWERSHELL_EXECUTABLES, List.find?]
    rw [hagree "pwsh", hagree "pwsh-lts", hagree "powershell"]

/-- C8 witness: an all-missing environment yields `none`, and it is
indistinguishable from an all-timed-out environment. -/
theorem claim_C8_find_powershell_witness :
    find_powershell (fun _ => ProbeOutcome.missing) = none
    ∧ find_powershell (fun _ => ProbeOutcome.missing)
        = find_powershell (fun _ => ProbeOutcome.timedOut) :=
  ⟨(claim_C8_find_powershell (fun _ => ProbeOutcome.missing) (fun _ => ProbeOutcome.timedOut)).2.1
      (by decide),
   (claim_C8_find_powershell (fun _ => ProbeOutcome.missing) (fun _ => ProbeOutcome.timedOut)).2.2
      (fun _ => rfl)⟩

/-- C10: every finding record yields a result entry whose ruleId is the
record's (possibly empty) rule name — so records with an absent or empty
RuleName still contribute a result with empty ruleId — while the rules
array never contains an entry with an empty id. -/
theorem claim_C10_empty_rule_id (abspath : String → String) (rs : List PSResult) (files : List String) :
    ((convert_to_sarif abspath rs files).results.map (fun r => r.ruleId)) = rs.map ridOf
    ∧ (convert_to_sarif abspath rs files).results.length = rs.length
    ∧ (∀ ru ∈ (convert_to_sarif abspath rs files).rules, ru.id ≠ "") := by
  refine ⟨?_, ?_, ?_⟩
  · rw [convert_to_sarif_results, convertLoop_snd, List.map_map]
    rfl
  · rw [convert_to_sarif_results, convertLoop_snd, List.length_map]
  · intro ru hru
    rw [convert_to_sarif_rules] at hru
    exact (convertLoop_id_invariant abspath rs [] ru hru).1

/-- C10 witness: a finding with no RuleName yields a result with empty
ruleId and no rule-metadata entry. -/
theorem claim_C10_empty_rule_id_witness :
    ((convert_to_sarif (fun s => s) [{ Severity := some (SevValue.str "Error") }]
        ["x.ps1"]).results.map (fun r => r.ruleId)) = [""] := by
  have h := (claim_C10_empty_rule_id (fun s => s)
    [{ Severity := some (SevValue.str "Error") }] ["x.ps1"]).1
  simpa [ridOf] using h

/-- Left identity of string concatenation. -/
theorem strEmptyAppend (s : String) : "" ++ s = s := rfl

/-- Severity branch taken for "All". -/
theorem severitySelection_All : severitySelection "All" = ("", "") := rfl

/-- Severity branch taken for "Information". -/
theorem severitySelection_Information : severitySelection "Information" = ("", "") := rfl

/-- Severity branch taken for "Warning". -/
theorem severitySelection_Warning : severitySelection "Warning" = ("", warningSeverityFilter) := rfl

/-- Severity branch taken for "Error". -/
theorem severitySelection_Error : severitySelection "Error" = ("-Severity Error", "") := rfl

/-- C1: for every file-array parameter (other options at their defaults),
severity "All" or "Information" selects no severity argument and no
severity post-filter — the two generated scripts coincide; severity
"Warning" selects no severity argument and the generated script contains
the post-filter retaining only Warning and Error severities; severity
"Error" selects the "-Severity Error" argument — contained in the
generated script — and no severity post-filter. -/
theorem claim_C1_severity_policy (files_param : String) :
    severitySelection "All" = ("", "")
    ∧ severitySelection "Information" = ("", "")
    ∧ generate_analysis_script files_param "All" false false false false false false none none false
        = generate_analysis_script files_param "Information" false false false false false false none none false
    ∧ severitySelection "Warning" = ("", warningSeverityFilter)
    ∧ strContains warningSeverityFilter
        (generate_analysis_script files_param "Warning" false false false false false false none none false)
    ∧ severitySelection "Error" = ("-Severity Error", "")
    ∧ strContains "-Severity Error"
        (generate_analysis_script files_param "Error" false false false false false false none none false) := by
  refine ⟨rfl, rfl, rfl, rfl, ?_, rfl, ?_⟩
  · refine strContains_of_eq_context (strContains_self warningSeverityFilter)
      (analysisHeader ++ files_param ++ analysisInvoke)
      (analysisLoopClose ++ textOutputCode ++ "\n        \x7d " ++ analysisErrorHandling ++ "\n        ")
      _ ?_
    simp only [generate_analysis_script, severitySelection_Warning, ruleCategoryFilter,
      includeExcludeFilter, Bool.false_eq_true, if_false, strAppendAssoc, strAppendEmpty,
      strEmptyAppend]
  · refine strContains_of_eq_context (strContains_self "-Severity Error")
      (analysisHeader ++ files_param ++ analysisInvoke)
      (analysisLoopClose ++ textOutputCode ++ "\n        \x7d " ++ analysisErrorHandling ++ "\n        ")
      _ ?_
    simp only [generate_analysis_script, severitySelection_Error, ruleCategoryFilter,
      includeExcludeFilter, Bool.false_eq_true, if_false, strAppendAssoc, strAppendEmpty,
      strEmptyAppend]

/-- Security branch of the category-filter chain is taken whenever
`security_only` is set, whatever the later flags are. -/
theorem ruleCategoryFilter_security (st pf bp ds co : Bool) :
    ruleCategoryFilter true st pf bp ds co = securityCategoryFilter := rfl

/-- C4: at most one category filter is applied, first-checked-wins in the
fixed order security, style, performance, best-practices, DSC,
compatibility; in particular with both `security_only` and `style_only`
set the generated script equals the script with only `security_only` set,
and it contains the security allow-list. -/
theorem claim_C4_category_first_wins (fp sev : String) (st pf bp ds co jo : Bool)
    (inc exc : Option (List String)) :
    generate_analysis_script fp sev true st pf bp ds co inc exc jo
      = generate_analysis_script fp sev true false false false false false inc exc jo
    ∧ ruleCategoryFilter true st pf bp ds co = securityCategoryFilter
    ∧ strContains (quoteJoin SECURITY_RULES)
        (generate_analysis_script fp sev true st pf bp ds co inc exc jo)
    ∧ ruleCategoryFilter false true pf bp ds co = styleCategoryFilter
    ∧ ruleCategoryFilter false false true bp ds co = performanceCategoryFilter
    ∧ ruleCategoryFilter false false false true ds co = bestPracticesCategoryFilter
    ∧ ruleCategoryFilter false false false false true co = dscCategoryFilter
    ∧ ruleCategoryFilter false false false false false true = compatibilityCategoryFilter := by
  refine ⟨rfl, rfl, ?_, rfl, rfl, rfl, rfl, rfl⟩
  have hsec : strContains (quoteJoin SECURITY_RULES) securityCategoryFilter := by
    refine ⟨"\n                # Filter to include only security-related rules\n                $categoryRules = @(",
      ")\n                $result = $result | Where-Object \x7b $categoryRules -contains $_.RuleName \x7d\n                # Add category property to results for SARIF conversion\n                $result | ForEach-Object \x7b\n                    $_ | Add-Member -MemberType NoteProperty -Name \"IsSecurityRule\" -Value $true -Force\n                    $_ | Add-Member -MemberType NoteProperty -Name \"RuleCategory\" -Value \"Security\" -Force\n                \x7d\n        ",
      ?_⟩
    simp only [securityCategoryFilter, strAppendAssoc]
  refine strContains_of_eq_context hsec
    (analysisHeader ++ fp ++ analysisInvoke ++ (severitySelection sev).1 ++ (severitySelection sev).2)
    (includeExcludeFilter inc exc ++ analysisLoopClose
      ++ (if jo then jsonOutputCode else textOutputCode)
      ++ "\n        \x7d " ++ analysisErrorHandling ++ "\n        ")
    _ ?_
  simp only [generate_analysis_script, ruleCategoryFilter_security, strAppendAssoc]

/-- Assignment order of the include/exclude filters: a non-empty exclude
list overwrites whatever the include branch assigned. -/
theorem includeExcludeFilter_overwrite (inc : Option (List String)) (exc : List String)
    (h : exc ≠ []) : includeExcludeFilter inc (some exc) = excludeFilterString exc := by
  cases inc <;> simp [includeExcludeFilter, h]

/-- C5: with both a non-empty include list and a non-empty exclude list,
the generated script equals the script generated with no include list at
all — only the exclude filter clause, which the script contains, is
applied. -/
theorem claim_C5_exclude_overrides_include (fp sev : String) (se sty pe bp ds co jo : Bool)
    (inc exc : List String) (hinc : inc ≠ []) (hexc : exc ≠ []) :
    generate_analysis_script fp sev se sty pe bp ds co (some inc) (some exc) jo
      = generate_analysis_script fp sev se sty pe bp ds co none (some exc) jo
    ∧ includeExcludeFilter (some inc) (some exc) = excludeFilterString exc
    ∧ strContains (excludeFilterString exc)
        (generate_analysis_script fp sev se sty pe bp ds co (some inc) (some exc) jo) := by
  refine ⟨?_, includeExcludeFilter_overwrite (some inc) exc hexc, ?_⟩
  · simp only [generate_analysis_script,
      includeExcludeFilter_overwrite (some inc) exc hexc,
      includeExcludeFilter_overwrite none exc hexc]
  · refine strContains_of_eq_context (strContains_self (excludeFilterString exc))
      (analysisHeader ++ fp ++ analysisInvoke ++ (severitySelection sev).1
        ++ (severitySelection sev).2 ++ ruleCategoryFilter se sty pe bp ds co)
      (analysisLoopClose ++ (if jo then jsonOutputCode else textOutputCode)
        ++ "\n        \x7d " ++ analysisErrorHandling ++ "\n        ")
      _ ?_
    simp only [generate_analysis_script,
      includeExcludeFilter_overwrite (some inc) exc hexc, strAppendAssoc]

/-- C5 witness: concrete include and exclude lists. -/
theorem claim_C5_exclude_overrides_include_witness :
    includeExcludeFilter (some ["PSAvoidUsingWriteHost"]) (some ["PSAvoidUsingCmdletAliases"])
      = excludeFilterString ["PSAvoidUsingCmdletAliases"] := by
  exact (claim_C5_exclude_overrides_include "x" "Warning" false false false false false false false
    ["PSAvoidUsingWriteHost"] ["PSAvoidUsingCmdletAliases"] (by decide) (by decide)).2.1

/-- C9: when PowerShell discovery returns `none` and at least one
PowerShell file was given, both entry points return exit status 1 and emit
a message containing "PowerShell not found", without attempting the
module check, the installation, or the analysis. -/
theorem claim_C9_powershell_not_found (w : World) (args : CliArgs) (cargs : CoreArgs)
    (hnone : find_powershell w.probe = none)
    (hver : args.version = false) (hrec : args.recursive = false)
    (hfiles : args.files.filter isPowerShellFile ≠ [])
    (hcfiles : cargs.files.filter isPowerShellFile ≠ []) :
    (cli_main w args).1 = 1
    ∧ Event.message ("Error: " ++ psaNotFoundMsg) ∈ (cli_main w args).2
    ∧ strContains "PowerShell not found" ("Error: " ++ psaNotFoundMsg)
    ∧ Event.checkModule ∉ (cli_main w args).2
    ∧ Event.installModule ∉ (cli_main w args).2
    ∧ Event.runAnalyzer ∉ (cli_main w args).2
    ∧ (core_main w cargs).1 = 1
    ∧ Event.message ("Error: " ++ psaNotFoundMsg) ∈ (core_main w cargs).2
    ∧ Event.checkModule ∉ (core_main w cargs).2
    ∧ Event.installModule ∉ (core_main w cargs).2
    ∧ Event.runAnalyzer ∉ (core_main w cargs).2 := by
  have hcli : cli_main w args =
      (1, [Event.message "Finding PowerShell installation...",
           Event.message ("Error: " ++ psaNotFoundMsg), Event.message psaVisitUrl]) := by
    simp [cli_main, hver, hrec, cliWithFiles, hnone, List.isEmpty_iff, hfiles]
  have hcore : core_main w cargs =
      (1, [Event.message ("Error: " ++ psaNotFoundMsg), Event.message psaVisitUrl]) := by
    simp [core_main, hnone, List.isEmpty_iff, hcfiles]
  rw [hcli, hcore]
  refine ⟨rfl, by simp, ?_, by simp, by simp, by simp, rfl, by simp, by simp, by simp, by simp⟩
  exact ⟨"Error: ", ". Please install PowerShell Core (pwsh) or Windows PowerShell.", by decide⟩

/-- C9 witness: an environment where every probe raises
`FileNotFoundError`, with one .ps1 file passed to each entry point. -/
theorem claim_C9_powershell_not_found_witness :
    (cli_main
      { probe := fun _ => ProbeOutcome.missing, recursiveFiles := [],
        moduleInstalled := true, installOk := true, analyzerExit := 0 }
      { files := ["test.ps1"] }).1 = 1 := by
  exact (claim_C9_powershell_not_found
    { probe := fun _ => ProbeOutcome.missing, recursiveFiles := [],
      moduleInstalled := true, installOk := true, analyzerExit := 0 }
    { files := ["test.ps1"] }
    { files := ["test.ps1"] }
    (by decide) rfl rfl (by decide) (by decide)).1

end PsSpec
